import Mathlib

/-!
Verification of the transcriber-api repository against its natural-language
specification.  Python sources under `app/` are shallowly embedded: pure
functions become Lean functions, Redis-backed state becomes explicit state
passing, raised exceptions become `Except` / sum results, and Python floats
(times, durations) are modelled as rationals.  The data-model module
`app/models/` is not part of the provided sources; the record types and the
pure `mark_*` transitions it exports are modelled from the spec and marked
as such in their doc comments.
-/

set_option maxRecDepth 20000

namespace Transcriber

/-- Modelled from the spec: `app/models/responses.py` is missing from the
sources; per spec section 3, a transcription segment carries a start time and
an end time in seconds (floats, here rationals), the text, and an optional
confidence.  The Python attribute `end` is a Lean keyword and is embedded as
`endTime`. -/
structure TranscriptionSegment where
  start : ℚ
  endTime : ℚ
  text : String
  confidence : Option ℚ := none
deriving DecidableEq, Repr

/-- Python `a % b` for `b > 0`: the remainder with the sign of the divisor,
`a - b * floor (a / b)`. -/
def pyMod (a b : ℚ) : ℚ := a - b * ⌊a / b⌋

/-- Zero padding of a natural number to width `w`, as Python's `{n:0wd}`
format specifier produces for non-negative `n`: the decimal digits, preceded
by zeros up to the requested width. -/
def natPad (w : Nat) (n : Nat) : String :=
  let s := toString n
  String.mk (List.replicate (w - s.length) '0') ++ s

/-- Python's `{n:0wd}` for an integer: a leading minus sign counts toward the
width and the zeros go after the sign. -/
def intPad (w : Nat) (n : Int) : String :=
  if n < 0 then "-" ++ natPad (w - 1) n.natAbs else natPad w n.toNat

namespace FormatConverter

/-- Embedding of `FormatConverter._format_srt_time` (app/services/formatters.py):
`hours = int(seconds // 3600)`, `minutes = int((seconds % 3600) // 60)`,
`secs = int(seconds % 60)`, `millis = int((seconds % 1) * 1000)`, rendered as
`HH:MM:SS,mmm`.  Python `int` truncates toward zero, which on the
non-negative values produced by `%` coincides with the floor. -/
def format_srt_time (seconds : ℚ) : String :=
  let hours : Int := ⌊seconds / 3600⌋
  let minutes : Int := ⌊pyMod seconds 3600 / 60⌋
  let secs : Int := ⌊pyMod seconds 60⌋
  let millis : Int := ⌊pyMod seconds 1 * 1000⌋
  intPad 2 hours ++ ":" ++ intPad 2 minutes ++ ":" ++ intPad 2 secs ++ "," ++ intPad 3 millis

/-- Embedding of `FormatConverter._format_vtt_time`: identical arithmetic,
rendered as `HH:MM:SS.mmm` with a dot before the milliseconds. -/
def format_vtt_time (seconds : ℚ) : String :=
  let hours : Int := ⌊seconds / 3600⌋
  let minutes : Int := ⌊pyMod seconds 3600 / 60⌋
  let secs : Int := ⌊pyMod seconds 60⌋
  let millis : Int := ⌊pyMod seconds 1 * 1000⌋
  intPad 2 hours ++ ":" ++ intPad 2 minutes ++ ":" ++ intPad 2 secs ++ "." ++ intPad 3 millis

/-- Embedding of `FormatConverter.to_text`: the segment texts joined with
single spaces. -/
def to_text (segments : List TranscriptionSegment) : String :=
  String.intercalate " " (segments.map (·.text))

/-- One SRT entry block for `FormatConverter.to_srt`: index line, timestamp
line, text line, blank line. -/
def srtEntry (i : Nat) (seg : TranscriptionSegment) : List String :=
  [toString i, format_srt_time seg.start ++ " --> " ++ format_srt_time seg.endTime, seg.text, ""]

/-- Embedding of `FormatConverter.to_srt`: 1-indexed entries joined by
newlines. -/
def to_srt (segments : List TranscriptionSegment) : String :=
  String.intercalate "\n" ((List.enumFrom 1 segments).flatMap fun p => srtEntry p.1 p.2)

/-- One VTT cue for `FormatConverter.to_vtt`: timestamp line, text line,
blank line. -/
def vttEntry (seg : TranscriptionSegment) : List String :=
  [format_vtt_time seg.start ++ " --> " ++ format_vtt_time seg.endTime, seg.text, ""]

/-- Embedding of `FormatConverter.to_vtt`: `WEBVTT` header followed by the
cues, joined by newlines. -/
def to_vtt (segments : List TranscriptionSegment) : String :=
  String.intercalate "\n" (["WEBVTT", ""] ++ segments.flatMap vttEntry)

end FormatConverter

/-- ASCII lower-casing of a character, as Python `str.lower` acts on the
ASCII range used by the format names. -/
def lowerChar (c : Char) : Char :=
  if 65 ≤ c.toNat ∧ c.toNat ≤ 90 then Char.ofNat (c.toNat + 32) else c

/-- Lower-casing of a string, character by character. -/
def pyLower (s : String) : String := String.mk (s.data.map lowerChar)

/-- Result of `FormatConverter.convert`: either a formatted string
(text, SRT, VTT) or the JSON shape, i.e. the list of segment dictionaries
(`seg.model_dump()` carries exactly the segment's fields, so the list of
segments itself models it). -/
inductive ConvertOutput where
  | str (s : String)
  | json (segments : List TranscriptionSegment)
deriving DecidableEq

namespace FormatConverter

/-- Embedding of `FormatConverter.convert`: lower-case the requested format,
dispatch on `"text"`, `"srt"`, `"vtt"`, and fall back to the JSON shape for
anything else. -/
def convert (segments : List TranscriptionSegment) (format : String) : ConvertOutput :=
  let format := pyLower format
  if format = "text" then .str (to_text segments)
  else if format = "srt" then .str (to_srt segments)
  else if format = "vtt" then .str (to_vtt segments)
  else .json segments

end FormatConverter

/-- Job lifecycle states, spec section 4.2. -/
inductive JobStatus where
  | queued
  | processing
  | completed
  | failed
deriving DecidableEq, Repr

/-- Modelled from the spec: `app/models/jobs.py` is missing from the sources.
Per spec section 3 a job record carries identity, status, progress, a result
payload and an error payload (kept opaque as strings here), the webhook URL,
the sticky `webhook_sent` flag, and the assigned worker identifier. -/
structure JobData where
  job_id : String
  status : JobStatus := .queued
  progress : ℚ := 0
  result : Option String := none
  error : Option String := none
  webhook_url : Option String := none
  webhook_sent : Bool := false
  worker_id : Option String := none
deriving DecidableEq, Repr

/-- Modelled from the spec: `markProcessing` records the worker identity and
moves the job to `processing`. -/
def JobData.mark_processing (job : JobData) (workerId : String) : JobData :=
  { job with status := .processing, worker_id := some workerId }

/-- Modelled from the spec: `markCompleted` sets status `completed`, progress
100, the result payload, and clears the error. -/
def JobData.mark_completed (job : JobData) (res : String) : JobData :=
  { job with status := .completed, progress := 100, result := some res, error := none }

/-- Modelled from the spec: `markFailed` sets status `failed`, the error
payload, and clears the result. -/
def JobData.mark_failed (job : JobData) (err : String) : JobData :=
  { job with status := .failed, error := some err, result := none }

/-- One key of the modelled Redis store: the stored job and the absolute time
at which the key expires. -/
structure RedisEntry where
  key : String
  value : JobData
  expiresAt : Nat
deriving DecidableEq, Repr

/-- The modelled Redis keyspace (the work-queue list is not needed by any
claim and is elided). -/
abbrev RedisStore := List RedisEntry

/-- Redis `GET` at time `now`.  Redis treats a key whose TTL has elapsed as
gone: every read command, `GET` included, sees nothing. -/
def redisGet (st : RedisStore) (now : Nat) (k : String) : Option JobData :=
  match st.find? (fun e => e.key == k) with
  | some e => if now < e.expiresAt then some e.value else none
  | none => none

/-- Redis `EXISTS` at time `now`.  Like `GET`, `EXISTS` reports an expired
key as non-existent. -/
def redisExists (st : RedisStore) (now : Nat) (k : String) : Bool :=
  match st.find? (fun e => e.key == k) with
  | some e => decide (now < e.expiresAt)
  | none => false

/-- Redis `SETEX` at time `now`: store the value under the key with a fresh
TTL window. -/
def redisSetex (st : RedisStore) (now ttl : Nat) (k : String) (v : JobData) : RedisStore :=
  ⟨k, v, now + ttl⟩ :: st.filter (fun e => e.key ≠ k)

/-- The two failure modes of `JobService.get_job`
(`JobNotFoundError` and `JobExpiredError` in app/core/exceptions.py). -/
inductive JobErr where
  | notFound (id : String)
  | expired (id : String)
deriving DecidableEq, Repr

/-- Outcome of the webhook POST: a response with a status code, or a raised
exception (connection error, timeout). -/
inductive WebhookOutcome where
  | response (statusCode : Nat)
  | exc
deriving DecidableEq, Repr

/-- A webhook delivery counts as successful exactly when the response status
is below 400, the condition `_send_webhook` tests. -/
def webhookSuccess : WebhookOutcome → Bool
  | .response code => code < 400
  | .exc => false

namespace JobService

/-- Embedding of `JobService._job_key`. -/
def job_key (id : String) : String := "job:" ++ id

/-- Embedding of `JobService.get_job` (app/services/jobs.py): `GET` the key;
on `None`, consult `EXISTS` to distinguish a never-issued identifier
(`JobNotFoundError`) from one that is claimed to have expired
(`JobExpiredError`). -/
def get_job (st : RedisStore) (now : Nat) (id : String) : Except JobErr JobData :=
  match redisGet st now (job_key id) with
  | some job => .ok job
  | none =>
    if redisExists st now (job_key id) then .error (.expired id)
    else .error (.notFound id)

/-- Embedding of `JobService.update_job`: full overwrite under a refreshed
TTL window. -/
def update_job (st : RedisStore) (now ttl : Nat) (job : JobData) : RedisStore :=
  redisSetex st now ttl (job_key job.job_id) job

/-- Embedding of `JobService._send_webhook`: nothing happens without a
webhook URL; a response with status below 400 marks `webhook_sent` and
persists the job; an error response or an exception is logged only, leaving
the job and the store untouched. -/
def send_webhook (st : RedisStore) (now ttl : Nat) (job : JobData) (w : WebhookOutcome) :
    JobData × RedisStore :=
  match job.webhook_url with
  | none => (job, st)
  | some _ =>
    match w with
    | .response code =>
      if code < 400 then
        let j := { job with webhook_sent := true }
        (j, update_job st now ttl j)
      else (job, st)
    | .exc => (job, st)

/-- Embedding of `JobService.complete_job`: load the job, `mark_completed`,
persist, then attempt the webhook when one is configured and not yet sent. -/
def complete_job (st : RedisStore) (now ttl : Nat) (id : String) (res : String)
    (w : WebhookOutcome) : Except JobErr (JobData × RedisStore) :=
  match get_job st now id with
  | .error e => .error e
  | .ok job =>
    let j := job.mark_completed res
    let st1 := update_job st now ttl j
    if j.webhook_url.isSome && !j.webhook_sent then .ok (send_webhook st1 now ttl j w)
    else .ok (j, st1)

/-- Embedding of `JobService.fail_job`: load the job, `mark_failed`, persist,
then attempt the webhook when one is configured and not yet sent. -/
def fail_job (st : RedisStore) (now ttl : Nat) (id : String) (err : String)
    (w : WebhookOutcome) : Except JobErr (JobData × RedisStore) :=
  match get_job st now id with
  | .error e => .error e
  | .ok job =>
    let j := job.mark_failed err
    let st1 := update_job st now ttl j
    if j.webhook_url.isSome && !j.webhook_sent then .ok (send_webhook st1 now ttl j w)
    else .ok (j, st1)

end JobService

/-- HTTP-level outcome of the cancel endpoint (app/api/v1/jobs.py). -/
inductive CancelOutcome where
  | cancelled
  | alreadyFinished
  | jobNotFound
  | internalError
deriving DecidableEq, Repr

/-- Embedding of the `cancel_job` endpoint: load the job (404 on
`JobNotFoundError`, 500 for `JobExpiredError` through the generic handler);
reject a terminal job with the `JOB_ALREADY_FINISHED` conflict error without
touching the store; otherwise cancel by `fail_job` with the distinguished
`JOB_CANCELLED` code. -/
def cancel_job (st : RedisStore) (now ttl : Nat) (id : String) (w : WebhookOutcome) :
    CancelOutcome × RedisStore :=
  match JobService.get_job st now id with
  | .error (.notFound _) => (.jobNotFound, st)
  | .error (.expired _) => (.internalError, st)
  | .ok job =>
    if job.status = .completed ∨ job.status = .failed then (.alreadyFinished, st)
    else
      match JobService.fail_job st now ttl id "JOB_CANCELLED" w with
      | .ok (_, st2) => (.cancelled, st2)
      | .error (.notFound _) => (.jobNotFound, st)
      | .error (.expired _) => (.internalError, st)

/-- Outcome of the `ffprobe` subprocess run by
`ASRService.get_audio_duration`: either the process ran, giving a return code
and (when the stripped stdout parses as a float) a parsed duration, or some
exception was raised along the way. -/
inductive ProbeOutcome where
  | ran (returncode : Int) (parsedStdout : Option ℚ)
  | exc
deriving DecidableEq, Repr

/-- A probe attempt that did not yield a parsed duration from a zero return
code counts as failed. -/
def probeFailed : ProbeOutcome → Bool
  | .ran 0 (some _) => false
  | _ => true

/-- The configuration fields read by the embedded control flow
(app/core/config.py defaults). -/
structure Settings where
  asr_provider : String := "local"
  openai_api_key : Option String := none
  asr_sync_max_duration : ℚ := 600
  max_upload_size_mb : Nat := 500
  redis_job_ttl : Nat := 86400
deriving DecidableEq, Repr

/-- What the opaque transcription engine (faster-whisper, or the parsed
OpenAI response body) reports: segments, detected language, confidence,
duration. -/
structure EngineResult where
  segments : List TranscriptionSegment
  language : String
  confidence : ℚ
  duration : ℚ
deriving DecidableEq, Repr

/-- ASR failure modes (app/core/exceptions.py). -/
inductive AsrErr where
  | modelNotAvailable
  | transcriptionFailed (provider : String)
deriving DecidableEq, Repr

/-- Successful output of the `ASRService.transcribe*` methods: the engine
fields plus the accumulated warnings. -/
structure AsrOk where
  segments : List TranscriptionSegment
  language : String
  confidence : ℚ
  duration : ℚ
  warnings : List String
deriving DecidableEq, Repr

/-- The literal warning `ASRService.transcribe` emits for the unimplemented
diarisation flag. -/
def diariseWarning : String := "Speaker diarisation requested but not yet implemented"

/-- The warning emitted when the Whisper translate task is selected (the
apostrophe of the source literal is dropped, which no claim observes). -/
def translateWarning : String := "Translating to English using Whisper built-in translation"

namespace ASRService

/-- Embedding of `ASRService.get_audio_duration`: a zero return code with a
parsable stdout yields the parsed duration; a non-zero return code returns
`0.0`; an unparsable stdout makes `float()` raise, and that exception — like
any other — is caught by the enclosing handler, which returns `0.0`. -/
def get_audio_duration : ProbeOutcome → ℚ
  | .ran 0 (some d) => d
  | .ran 0 none => 0
  | .ran _ _ => 0
  | .exc => 0

/-- Embedding of `ASRService.transcribe` (local faster-whisper path).  The
diarisation flag contributes only a warning and is not passed to the engine;
the translate warning is added when `translate_to == "en"` and the language
hint is not `"en"`; an engine failure discards the warnings and surfaces as
an error. -/
def transcribe (engine : Except AsrErr EngineResult) (language translate_to : Option String)
    (diarise : Bool) : Except AsrErr AsrOk :=
  let warnings :=
    (if diarise then [diariseWarning] else []) ++
    (if translate_to = some "en" ∧ language ≠ some "en" then [translateWarning] else [])
  match engine with
  | .ok r => .ok ⟨r.segments, r.language, r.confidence, r.duration, warnings⟩
  | .error e => .error e

/-- Embedding of `ASRService.transcribe_with_openai`.  This method takes no
diarisation parameter at all; its warnings list is created empty and never
appended to, and the confidence is the constant `0.95`.  (The fallback that
synthesises one segment from the full text when the response has none is
elided: no claim observes it.) -/
def transcribe_with_openai (apiKeyConfigured : Bool) (response : Except AsrErr EngineResult)
    (_language : Option String) : Except AsrErr AsrOk :=
  if !apiKeyConfigured then .error (.transcriptionFailed "openai")
  else
    match response with
    | .ok r => .ok ⟨r.segments, r.language, 0.95, r.duration, []⟩
    | .error e => .error e

end ASRService

/-- Transcription sources (app/models/responses.py, modelled from the spec:
platform captions, local engine, hosted-provider variants). -/
inductive TranscriptionSource where
  | youtube_captions
  | asr_local
  | asr_openai
  | asr_deepgram
  | asr_assemblyai
  | asr
deriving DecidableEq, Repr

/-- Embedding of `ASRService.get_source`: map the configured provider name
to a source tag, defaulting to the generic tag. -/
def get_source (provider : String) : TranscriptionSource :=
  if provider = "local" then .asr_local
  else if provider = "openai" then .asr_openai
  else if provider = "deepgram" then .asr_deepgram
  else if provider = "assemblyai" then .asr_assemblyai
  else .asr

/-- The provider dispatch the endpoints and the worker all repeat:
`transcribe_with_openai` when the configured provider is `openai` and a key
is present, the local `transcribe` otherwise. -/
def pick_asr (s : Settings) (engine : Except AsrErr EngineResult)
    (language translate_to : Option String) (diarise : Bool) : Except AsrErr AsrOk :=
  if s.asr_provider = "openai" ∧ s.openai_api_key.isSome then
    ASRService.transcribe_with_openai true engine language
  else
    ASRService.transcribe engine language translate_to diarise

/-- Modelled from the spec: the synchronous transcription response body
(app/models/responses.py is missing from the sources). -/
structure TranscriptionResponse where
  source : TranscriptionSource
  language : String
  confidence : Option ℚ
  duration : ℚ
  transcript : String
  segments : List TranscriptionSegment
  warnings : List String
deriving DecidableEq, Repr

/-- Media-layer failure modes (app/core/exceptions.py). -/
inductive MediaErr where
  | fileTooLarge
  | downloadFailed
  | unsupportedType
deriving DecidableEq, Repr

/-- Stable machine-readable code of a media error. -/
def mediaErrCode : MediaErr → String
  | .fileTooLarge => "FILE_TOO_LARGE"
  | .downloadFailed => "MEDIA_DOWNLOAD_FAILED"
  | .unsupportedType => "UNSUPPORTED_MEDIA_TYPE"

/-- Stable machine-readable code of an ASR error. -/
def asrErrCode : AsrErr → String
  | .modelNotAvailable => "MODEL_NOT_AVAILABLE"
  | .transcriptionFailed _ => "TRANSCRIPTION_FAILED"

/-- Where the temporary media file of one request ends up once the request
(and any background task it scheduled) is done. -/
inductive FileState where
  | noFile
  | onDisk
  | removed
  | handedToJob
deriving DecidableEq, Repr

namespace MediaService

/-- The streaming loop of `MediaService.save_upload`: accumulate chunk
sizes and re-validate after every chunk, aborting with `FileTooLargeError`
the moment the ceiling is crossed. -/
def save_upload_loop (maxBytes : Nat) (total : Nat) : List Nat → Except MediaErr Unit
  | [] => .ok ()
  | c :: rest =>
    if total + c > maxBytes then .error .fileTooLarge
    else save_upload_loop maxBytes (total + c) rest

/-- Embedding of `MediaService.save_upload`: `aiofiles.open` creates the
temp file before the first chunk is read, and no path of the method unlinks
it — so the boolean (file on disk) is `true` on the success exit and on the
size abort alike. -/
def save_upload (s : Settings) (chunks : List Nat) : Except MediaErr Unit × Bool :=
  (save_upload_loop (s.max_upload_size_mb * 1024 * 1024) 0 chunks, true)

/-- Outcome of `MediaService.download_url`, abstracting the HTTP exchange:
a non-200 status, a rejected content type and an oversized `Content-Length`
all fail before the temp file is created; crossing the size ceiling
mid-stream aborts with the partial file already on disk. -/
inductive DownloadUrlOutcome where
  | httpError
  | badContentType
  | headerTooLarge
  | streamTooLarge
  | okFile
deriving DecidableEq, Repr

/-- Embedding of `MediaService.download_url` at the level the claims
observe: which error is raised and whether a (possibly partial) temp file is
on disk when the method exits. -/
def download_url : DownloadUrlOutcome → Except MediaErr Unit × Bool
  | .httpError => (.error .downloadFailed, false)
  | .badContentType => (.error .unsupportedType, false)
  | .headerTooLarge => (.error .fileTooLarge, false)
  | .streamTooLarge => (.error .fileTooLarge, true)
  | .okFile => (.ok (), true)

end MediaService

/-- What the upstream caption library (`youtube_transcript_api`) does for a
given video: deliver a transcript (segments, language, accumulated
warnings), or raise one of its exceptions. -/
inductive CaptionFetch where
  | fetched (segments : List TranscriptionSegment) (language : String) (warnings : List String)
  | raiseVideoUnavailable
  | raiseTranscriptsDisabled
  | raiseNoTranscriptFound
  | raiseNoTranscriptAvailable
  | raiseOther
deriving DecidableEq, Repr

/-- Domain errors of the YouTube service (app/core/exceptions.py). -/
inductive YtErr where
  | videoUnavailable
  | captionsDisabled
  | transcriptNotFound
deriving DecidableEq, Repr

/-- Stable machine-readable code of a YouTube error. -/
def ytErrCode : YtErr → String
  | .videoUnavailable => "VIDEO_UNAVAILABLE"
  | .captionsDisabled => "CAPTIONS_DISABLED"
  | .transcriptNotFound => "TRANSCRIPT_NOT_FOUND"

namespace YouTubeService

/-- Embedding of the exception-translation layer of
`YouTubeService.fetch_captions` (app/services/youtube.py, lines 211-232):
`VideoUnavailable` becomes `VideoUnavailableError`, `TranscriptsDisabled`
becomes `CaptionsDisabledError`, and `NoTranscriptFound`,
`NoTranscriptAvailable` and any unexpected exception all become
`TranscriptNotFoundError`. -/
def fetch_captions : CaptionFetch → Except YtErr (List TranscriptionSegment × String × List String)
  | .fetched segments language warnings => .ok (segments, language, warnings)
  | .raiseVideoUnavailable => .error .videoUnavailable
  | .raiseTranscriptsDisabled => .error .captionsDisabled
  | .raiseNoTranscriptFound => .error .transcriptNotFound
  | .raiseNoTranscriptAvailable => .error .transcriptNotFound
  | .raiseOther => .error .transcriptNotFound

/-- Embedding of `YouTubeService.get_video_duration`: the maximum segment
end time, `0.0` for the empty list. -/
def get_video_duration : List TranscriptionSegment → ℚ
  | [] => 0
  | seg :: rest => (rest.map (·.endTime)).foldl max seg.endTime

end YouTubeService

deriving instance DecidableEq for Except

/-- HTTP-level outcome of a transcription endpoint call: a synchronous
response body, a plain-text rendering of it, an accepted job handle, or an
error carrying its machine-readable code. -/
inductive ApiOutcome where
  | ok (response : TranscriptionResponse)
  | plainText (content : String)
  | accepted (jobId : String)
  | apiError (code : String)
deriving DecidableEq, Repr

/-- Environment of one YouTube endpoint call: the request parameters and the
behaviour of every external collaborator, fixed up front. -/
structure YtEnv where
  force_asr : Bool := false
  diarise : Bool := false
  language : Option String := none
  translate_to : Option String := none
  format : String := "json"
  captions : CaptionFetch := .raiseTranscriptsDisabled
  download : Except MediaErr Unit := .ok ()
  probe : ProbeOutcome := .exc
  engine : Except AsrErr EngineResult := .error .modelNotAvailable
  settings : Settings := {}
deriving DecidableEq, Repr

/-- Embedding of `process_youtube_asr` (app/api/v1/transcriptions.py):
download the audio, probe the duration (bound but never compared on this
endpoint), transcribe with the configured provider, build the response.  The
`try/finally` removes the temp file on the success exit and on an engine
failure alike; a download failure never creates the file. -/
def process_youtube_asr (env : YtEnv) : Except String TranscriptionResponse × FileState :=
  match env.download with
  | .error e => (.error (mediaErrCode e), .noFile)
  | .ok () =>
    let _duration := ASRService.get_audio_duration env.probe
    let asrRes := pick_asr env.settings env.engine env.language env.translate_to env.diarise
    match asrRes with
    | .error e => (.error (asrErrCode e), .removed)
    | .ok a =>
      (.ok { source := get_source env.settings.asr_provider
             language := a.language
             confidence := some a.confidence
             duration := a.duration
             transcript := FormatConverter.to_text a.segments
             segments := a.segments
             warnings := a.warnings }, .removed)

/-- The Path-B tail of `transcribe_youtube`: run `process_youtube_asr`, then
apply the output-format conversion; domain errors surface through the
`TranscriberError` handler as their code. -/
def youtube_asr_branch (env : YtEnv) : ApiOutcome × FileState × Bool :=
  match process_youtube_asr env with
  | (.error code, fs) => (.apiError code, fs, true)
  | (.ok response, fs) =>
    if env.format ≠ "json" then
      match FormatConverter.convert response.segments env.format with
      | .str s => (.plainText s, fs, true)
      | .json _ => (.ok response, fs, true)
    else (.ok response, fs, true)

/-- Embedding of the `transcribe_youtube` endpoint.  Captions are tried
first unless ASR was forced or diarisation requested; `CaptionsDisabledError`
and `TranscriptNotFoundError` switch to the ASR branch, every other caption
error surfaces immediately.  The third component records whether the ASR
branch ran.  Note: the source compares the probed duration against no
threshold on this endpoint — the ASR branch always answers synchronously. -/
def transcribe_youtube (env : YtEnv) : ApiOutcome × FileState × Bool :=
  let needs_asr := env.force_asr || env.diarise
  if needs_asr then youtube_asr_branch env
  else
    match YouTubeService.fetch_captions env.captions with
    | .ok (segments, language, warnings) =>
      let response : TranscriptionResponse :=
        { source := .youtube_captions
          language := language
          confidence := none
          duration := YouTubeService.get_video_duration segments
          transcript := FormatConverter.to_text segments
          segments := segments
          warnings := warnings }
      if env.format ≠ "json" then
        match FormatConverter.convert segments env.format with
        | .str s => (.plainText s, .noFile, false)
        | .json _ => (.ok response, .noFile, false)
      else (.ok response, .noFile, false)
    | .error .captionsDisabled => youtube_asr_branch env
    | .error .transcriptNotFound => youtube_asr_branch env
    | .error .videoUnavailable => (.apiError (ytErrCode .videoUnavailable), .noFile, false)

/-- How the media endpoint call supplies its input. -/
inductive MediaInput where
  | upload (chunks : List Nat)
  | socialUrl (dl : Except MediaErr Unit)
  | youtubeUrl
  | directUrl (dl : MediaService.DownloadUrlOutcome)
  | missing
deriving DecidableEq, Repr

/-- Environment of one media endpoint call. -/
structure MediaEnv where
  input : MediaInput := .missing
  diarise : Bool := false
  translate_to : Option String := none
  format : String := "json"
  language : Option String := none
  webhook_url : Option String := none
  probe : ProbeOutcome := .exc
  engine : Except AsrErr EngineResult := .error .modelNotAvailable
  settings : Settings := {}
deriving DecidableEq, Repr

/-- The inner `try/finally` of `transcribe_media`, entered once a temp file
is on disk.  `duration` is first the probed value; past the threshold the
request creates a job, schedules the background task and returns the handle
with the file handed to that task.  On the synchronous branch the source
rebinds `duration` to the ASR-reported value before the `finally` clause
tests `duration <= ceiling`, so cleanup is skipped when the reported
duration exceeds the ceiling even though the probed one did not. -/
def transcribe_media_core (env : MediaEnv) (st : RedisStore) (now : Nat) :
    ApiOutcome × FileState × RedisStore :=
  let duration := ASRService.get_audio_duration env.probe
  if duration > env.settings.asr_sync_max_duration then
    let job : JobData := { job_id := "job-1", webhook_url := env.webhook_url }
    let st1 := redisSetex st now env.settings.redis_job_ttl (JobService.job_key job.job_id) job
    (.accepted job.job_id, .handedToJob, st1)
  else
    let asrRes := pick_asr env.settings env.engine env.language env.translate_to env.diarise
    match asrRes with
    | .error e => (.apiError (asrErrCode e), .removed, st)
    | .ok a =>
      let response : TranscriptionResponse :=
        { source := get_source env.settings.asr_provider
          language := a.language
          confidence := some a.confidence
          duration := a.duration
          transcript := FormatConverter.to_text a.segments
          segments := a.segments
          warnings := a.warnings }
      let out :=
        if env.format ≠ "json" then
          match FormatConverter.convert a.segments env.format with
          | .str s => ApiOutcome.plainText s
          | .json _ => ApiOutcome.ok response
        else ApiOutcome.ok response
      (out, if a.duration ≤ env.settings.asr_sync_max_duration then .removed else .onDisk, st)

/-- Embedding of the `transcribe_media` endpoint: validate that an input was
given, acquire the media (upload, social extractor, or direct URL — YouTube
URLs are rejected toward the dedicated endpoint), then run the inner
threshold/transcription block.  Acquisition failures surface with whatever
the acquisition left on disk. -/
def transcribe_media (env : MediaEnv) (st : RedisStore) (now : Nat) :
    ApiOutcome × FileState × RedisStore :=
  match env.input with
  | .missing => (.apiError "MISSING_INPUT", .noFile, st)
  | .upload chunks =>
    match MediaService.save_upload env.settings chunks with
    | (.error e, onDisk) => (.apiError (mediaErrCode e), if onDisk then .onDisk else .noFile, st)
    | (.ok (), _) => transcribe_media_core env st now
  | .socialUrl dl =>
    match dl with
    | .error e => (.apiError (mediaErrCode e), .noFile, st)
    | .ok () => transcribe_media_core env st now
  | .youtubeUrl => (.apiError "USE_YOUTUBE_ENDPOINT", .noFile, st)
  | .directUrl dlo =>
    match MediaService.download_url dlo with
    | (.error e, onDisk) => (.apiError (mediaErrCode e), if onDisk then .onDisk else .noFile, st)
    | (.ok (), _) => transcribe_media_core env st now

/-- Embedding of `process_async_job`, the background task the async branch
schedules: mark the job processing, transcribe, finalise through
`complete_job` or `fail_job`; its `finally` clause removes the temp file on
every exit. -/
def process_async_job (env : MediaEnv) (st : RedisStore) (now : Nat) (job_id : String)
    (w : WebhookOutcome) : RedisStore × FileState :=
  let ttl := env.settings.redis_job_ttl
  let finalStore :=
    match JobService.get_job st now job_id with
    | .error _ =>
      match JobService.fail_job st now ttl job_id "TRANSCRIPTION_FAILED" w with
      | .ok (_, st2) => st2
      | .error _ => st
    | .ok job =>
      let st1 := JobService.update_job st now ttl (job.mark_processing "local-worker")
      let asrRes := pick_asr env.settings env.engine env.language env.translate_to env.diarise
      match asrRes with
      | .ok a =>
        match JobService.complete_job st1 now ttl job_id (FormatConverter.to_text a.segments) w with
        | .ok (_, st2) => st2
        | .error _ => st1
      | .error _ =>
        match JobService.fail_job st1 now ttl job_id "TRANSCRIPTION_FAILED" w with
        | .ok (_, st2) => st2
        | .error _ => st1
  (finalStore, .removed)

/-- The timestamp shape the spec asserts for SRT: hours, minutes and
seconds zero-padded to exactly two digits, milliseconds to exactly three,
with colons between the clock fields and a comma before the milliseconds. -/
def srtShape (s : String) : Prop :=
  ∃ a b c d : Nat, a < 100 ∧ b < 60 ∧ c < 60 ∧ d < 1000 ∧
    s = natPad 2 a ++ ":" ++ natPad 2 b ++ ":" ++ natPad 2 c ++ "," ++ natPad 3 d

/-- The VTT timestamp shape: identical digit widths, dot before the
milliseconds. -/
def vttShape (s : String) : Prop :=
  ∃ a b c d : Nat, a < 100 ∧ b < 60 ∧ c < 60 ∧ d < 1000 ∧
    s = natPad 2 a ++ ":" ++ natPad 2 b ++ ":" ++ natPad 2 c ++ "." ++ natPad 3 d

/-- The claim as stated, for one start/end pair: both formatted endpoints
have the asserted shape in SRT and in VTT. -/
def claimedTimestampShapes (startT endT : ℚ) : Prop :=
  srtShape (FormatConverter.format_srt_time startT) ∧
  srtShape (FormatConverter.format_srt_time endT) ∧
  vttShape (FormatConverter.format_vtt_time startT) ∧
  vttShape (FormatConverter.format_vtt_time endT)

/-!  Theorems.  Each claim of the specification review is settled by exactly
one theorem below; shared helper lemmas precede them. -/

/-- C1 (code bug): on a store holding the job `a` whose TTL window ended at
time 100, `get_job` at time 200 reports `JobNotFoundError`, not the
`JobExpiredError` the claim (and the code of `get_job` itself) promises for
an issued-but-expired identifier — because Redis `EXISTS`, like `GET`,
treats an expired key as non-existent, the `JobExpiredError` branch cannot
trigger outside a race.  A never-issued identifier and a live identifier
behave as claimed. -/
theorem get_job_expired_reports_not_found :
    JobService.get_job [⟨"job:a", { job_id := "a" }, 100⟩] 200 "a" = .error (.notFound "a") ∧
    JobService.get_job [⟨"job:a", { job_id := "a" }, 100⟩] 50 "a" = .ok { job_id := "a" } ∧
    JobService.get_job [⟨"job:a", { job_id := "a" }, 100⟩] 200 "zzz" = .error (.notFound "zzz") :=
  ⟨rfl, rfl, rfl⟩

/-- C2 (code bug): a YouTube request forced onto the ASR path whose probed
duration is 900 seconds — above the default 600-second synchronous ceiling —
still receives a synchronous transcription result, never a job handle: the
YouTube endpoint compares the duration against no threshold. -/
theorem transcribe_youtube_long_duration_synchronous :
    ASRService.get_audio_duration (.ran 0 (some 900)) > ({} : Settings).asr_sync_max_duration ∧
    ∃ r, transcribe_youtube
        { force_asr := true, probe := .ran 0 (some 900),
          engine := .ok ⟨[⟨0, 2, "hello", none⟩], "en", 9/10, 900⟩ } =
      (.ok r, .removed, true) := by
  constructor
  · show (900 : ℚ) > (600 : ℚ)
    norm_num
  · exact ⟨_, rfl⟩

/-- Helper: once the threshold test fails, the synchronous branch of
`transcribe_media_core` can only answer with a response, a plain-text body
or an error — never with a job handle — and never hands the file to a
background job. -/
theorem transcribe_media_core_sync (env : MediaEnv) (st : RedisStore) (now : Nat)
    (h : ¬ (ASRService.get_audio_duration env.probe > env.settings.asr_sync_max_duration)) :
    (∀ jobId, (transcribe_media_core env st now).1 ≠ ApiOutcome.accepted jobId) ∧
    (transcribe_media_core env st now).2.1 ≠ .handedToJob := by
  unfold transcribe_media_core
  rw [if_neg h]
  rcases hA : pick_asr env.settings env.engine env.language env.translate_to env.diarise with e | a
  · simp [hA]
  · simp only [hA]
    constructor
    · intro jobId
      split
      · split <;> simp
      · simp
    · split <;> simp

/-- C9: `get_audio_duration` absorbs every probe failure into `0.0`, and a
request whose probe failed therefore always lands on the synchronous branch
of the media endpoint — never on the job queue — whenever the configured
ceiling is non-negative. -/
theorem get_audio_duration_probe_failure_sync (o : ProbeOutcome) (env : MediaEnv)
    (st : RedisStore) (now : Nat)
    (ho : probeFailed o = true) (henv : env.probe = o)
    (hc : 0 ≤ env.settings.asr_sync_max_duration) :
    ASRService.get_audio_duration o = 0 ∧
    (∀ jobId, (transcribe_media_core env st now).1 ≠ ApiOutcome.accepted jobId) ∧
    (transcribe_media_core env st now).2.1 ≠ .handedToJob := by
  have hz : ASRService.get_audio_duration o = 0 := by
    unfold ASRService.get_audio_duration
    split
    · simp [probeFailed] at ho
    · rfl
    · rfl
    · rfl
  have hlt : ¬ (ASRService.get_audio_duration env.probe > env.settings.asr_sync_max_duration) := by
    rw [henv, hz]
    exact not_lt.mpr hc
  have hs := transcribe_media_core_sync env st now hlt
  exact ⟨hz, hs.1, hs.2⟩

/-- Witness for C9 at the concrete failing probe `.exc` with the default
settings. -/
theorem get_audio_duration_probe_failure_sync_witness :
    ASRService.get_audio_duration .exc = 0 ∧
    (∀ jobId, (transcribe_media_core {} [] 0).1 ≠ ApiOutcome.accepted jobId) ∧
    (transcribe_media_core {} [] 0).2.1 ≠ .handedToJob :=
  get_audio_duration_probe_failure_sync .exc {} [] 0 rfl rfl (by norm_num)

/-- Helper: the ASR branch of the YouTube endpoint always records that ASR
was attempted. -/
theorem youtube_asr_branch_ran (env : YtEnv) : (youtube_asr_branch env).2.2 = true := by
  unfold youtube_asr_branch
  rcases h : process_youtube_asr env with ⟨e | resp, fs⟩
  · simp [h]
  · simp only [h]
    split
    · split <;> simp
    · simp

/-- Helper: the only error codes the YouTube ASR branch can surface are the
media and ASR codes — never the caption-availability codes. -/
theorem process_youtube_asr_err_codes (env : YtEnv) (c : String)
    (h : (process_youtube_asr env).1 = .error c) :
    c = "FILE_TOO_LARGE" ∨ c = "MEDIA_DOWNLOAD_FAILED" ∨ c = "UNSUPPORTED_MEDIA_TYPE" ∨
    c = "MODEL_NOT_AVAILABLE" ∨ c = "TRANSCRIPTION_FAILED" := by
  unfold process_youtube_asr at h
  rcases hd : env.download with e | u
  · rw [hd] at h
    simp only at h
    cases e <;> simp [mediaErrCode] at h <;> simp [h.symm]
  · rw [hd] at h
    simp only at h
    rcases hA : pick_asr env.settings env.engine env.language env.translate_to env.diarise with e | a
    · rw [hA] at h
      simp only at h
      cases e <;> simp [asrErrCode] at h <;> simp [h.symm]
    · rw [hA] at h
      simp at h

/-- Helper: the YouTube ASR branch never surfaces a caption-availability
error code to the caller. -/
theorem youtube_asr_branch_no_caption_code (env : YtEnv) :
    (youtube_asr_branch env).1 ≠ .apiError "CAPTIONS_DISABLED" ∧
    (youtube_asr_branch env).1 ≠ .apiError "TRANSCRIPT_NOT_FOUND" := by
  unfold youtube_asr_branch
  rcases h : process_youtube_asr env with ⟨e | resp, fs⟩
  · have hc := process_youtube_asr_err_codes env e (by rw [h])
    simp only [h]
    rcases hc with h1 | h1 | h1 | h1 | h1 <;> subst h1 <;> exact ⟨by simp, by simp⟩
  · simp only [h]
    constructor
    · split
      · split <;> simp
      · simp
    · split
      · split <;> simp
      · simp

/-- C3: on a YouTube request that neither forced ASR nor asked for
diarisation, a captions-disabled or transcript-not-found signal makes the
orchestrator run the ASR branch instead of surfacing the caption error,
while a video-unavailable signal fails immediately with that error and the
ASR branch never runs. -/
theorem youtube_caption_fallback (env : YtEnv)
    (hf : env.force_asr = false) (hd : env.diarise = false) :
    ((env.captions = .raiseTranscriptsDisabled ∨ env.captions = .raiseNoTranscriptFound ∨
        env.captions = .raiseNoTranscriptAvailable) →
      (transcribe_youtube env).2.2 = true ∧
      (transcribe_youtube env).1 ≠ .apiError "CAPTIONS_DISABLED" ∧
      (transcribe_youtube env).1 ≠ .apiError "TRANSCRIPT_NOT_FOUND") ∧
    (env.captions = .raiseVideoUnavailable →
      (transcribe_youtube env).1 = .apiError "VIDEO_UNAVAILABLE" ∧
      (transcribe_youtube env).2.2 = false) := by
  constructor
  · intro hc
    have hb : transcribe_youtube env = youtube_asr_branch env := by
      unfold transcribe_youtube
      rcases hc with h | h | h <;>
        simp [hf, hd, h, YouTubeService.fetch_captions]
    rw [hb]
    exact ⟨youtube_asr_branch_ran env, youtube_asr_branch_no_caption_code env⟩
  · intro hv
    unfold transcribe_youtube
    simp [hf, hd, hv, YouTubeService.fetch_captions, ytErrCode]

/-- Witness for C3 at concrete environments: captions disabled falls through
to ASR; an unavailable video surfaces immediately without ASR. -/
theorem youtube_caption_fallback_witness :
    (transcribe_youtube { captions := .raiseTranscriptsDisabled }).2.2 = true ∧
    (transcribe_youtube { captions := .raiseVideoUnavailable }).1 = .apiError "VIDEO_UNAVAILABLE" ∧
    (transcribe_youtube { captions := .raiseVideoUnavailable }).2.2 = false :=
  ⟨((youtube_caption_fallback { captions := .raiseTranscriptsDisabled } rfl rfl).1 (.inl rfl)).1,
   ((youtube_caption_fallback { captions := .raiseVideoUnavailable } rfl rfl).2 rfl).1,
   ((youtube_caption_fallback { captions := .raiseVideoUnavailable } rfl rfl).2 rfl).2⟩

/-- Helper: `_send_webhook` never touches the job status, result or error;
it can set `webhook_sent` only on a response status below 400, and it does
set it when a webhook is configured and the delivery succeeds. -/
theorem send_webhook_effects (st : RedisStore) (now ttl : Nat) (job : JobData)
    (w : WebhookOutcome) :
    (JobService.send_webhook st now ttl job w).1.status = job.status ∧
    (JobService.send_webhook st now ttl job w).1.result = job.result ∧
    (JobService.send_webhook st now ttl job w).1.error = job.error ∧
    (JobService.send_webhook st now ttl job w).1.job_id = job.job_id ∧
    ((JobService.send_webhook st now ttl job w).1.webhook_sent = true →
      job.webhook_sent = true ∨ webhookSuccess w = true) ∧
    (job.webhook_url.isSome = true → webhookSuccess w = true →
      (JobService.send_webhook st now ttl job w).1.webhook_sent = true) := by
  unfold JobService.send_webhook
  rcases hu : job.webhook_url with _ | u
  · simp only [hu]
    refine ⟨trivial, trivial, trivial, trivial, fun h => Or.inl h, ?_⟩
    simp
  · simp only [hu]
    rcases w with code | _
    · by_cases hcode : code < 400
      · simp [hcode, webhookSuccess]
      · simp [hcode, webhookSuccess]
    · simp [webhookSuccess]

/-- C4: completing or failing a job leaves its terminal status independent
of the webhook outcome, and `webhook_sent` can become true only when it
already was or the POST got a success status; with a configured webhook not
yet delivered, a success status does mark it sent. -/
theorem terminal_transition_webhook (st : RedisStore) (now ttl : Nat)
    (id res err : String) (w : WebhookOutcome) (job : JobData)
    (hj : JobService.get_job st now id = .ok job) :
    (∃ j2 st2, JobService.complete_job st now ttl id res w = .ok (j2, st2) ∧
      j2.status = .completed ∧ j2.result = some res ∧
      (j2.webhook_sent = true → job.webhook_sent = true ∨ webhookSuccess w = true) ∧
      (job.webhook_url.isSome = true → job.webhook_sent = false → webhookSuccess w = true →
        j2.webhook_sent = true)) ∧
    (∃ j3 st3, JobService.fail_job st now ttl id err w = .ok (j3, st3) ∧
      j3.status = .failed ∧ j3.error = some err ∧
      (j3.webhook_sent = true → job.webhook_sent = true ∨ webhookSuccess w = true)) := by
  have key : ∀ j : JobData,
      ∃ j2 st2,
        (if (j.webhook_url.isSome && !j.webhook_sent) = true
          then JobService.send_webhook (JobService.update_job st now ttl j) now ttl j w
          else (j, JobService.update_job st now ttl j)) = (j2, st2) ∧
        j2.status = j.status ∧ j2.result = j.result ∧ j2.error = j.error ∧
        (j2.webhook_sent = true → j.webhook_sent = true ∨ webhookSuccess w = true) ∧
        (j.webhook_url.isSome = true → j.webhook_sent = false → webhookSuccess w = true →
          j2.webhook_sent = true) := by
    intro j
    by_cases hcond : (j.webhook_url.isSome && !j.webhook_sent) = true
    · rw [if_pos hcond]
      have he := send_webhook_effects (JobService.update_job st now ttl j) now ttl j w
      exact ⟨_, _, rfl, he.1, he.2.1, he.2.2.1, he.2.2.2.2.1,
        fun hurl _ hsucc => he.2.2.2.2.2 hurl hsucc⟩
    · rw [if_neg hcond]
      refine ⟨j, _, rfl, rfl, rfl, rfl, fun h => Or.inl h, ?_⟩
      intro hurl hsent _
      exact absurd (by simp [hurl, hsent]) hcond
  constructor
  · unfold JobService.complete_job
    rw [hj]
    dsimp only
    rw [← apply_ite Except.ok]
    obtain ⟨j2, st2, hif, h1, h2, _, h4, h5⟩ := key (job.mark_completed res)
    rw [hif]
    exact ⟨j2, st2, rfl, by rw [h1]; rfl, by rw [h2]; rfl, h4, h5⟩
  · unfold JobService.fail_job
    rw [hj]
    dsimp only
    rw [← apply_ite Except.ok]
    obtain ⟨j3, st3, hif, h1, _, h3, h4, _⟩ := key (job.mark_failed err)
    rw [hif]
    exact ⟨j3, st3, rfl, by rw [h1]; rfl, by rw [h3]; rfl, h4⟩

/-- Witness for C4 on a one-job store with a configured webhook: a 500
response from the webhook leaves the completed status and does not mark the
webhook sent, and a failing job with a 200 webhook response stays failed. -/
theorem terminal_transition_webhook_witness :
    (∃ j2 st2, JobService.complete_job
        [⟨"job:a", { job_id := "a", webhook_url := some "http://h" }, 100⟩] 0 60 "a" "r"
        (.response 500) = .ok (j2, st2) ∧
      j2.status = .completed ∧ j2.result = some "r" ∧
      (j2.webhook_sent = true →
        ({ job_id := "a", webhook_url := some "http://h" } : JobData).webhook_sent = true ∨
          webhookSuccess (.response 500) = true)) := by
  have h := terminal_transition_webhook
    [⟨"job:a", { job_id := "a", webhook_url := some "http://h" }, 100⟩] 0 60 "a" "r" "e"
    (.response 500) { job_id := "a", webhook_url := some "http://h" } rfl
  obtain ⟨⟨j2, st2, h1, h2, h3, h4, _⟩, _⟩ := h
  exact ⟨j2, st2, h1, h2, h3, h4⟩

/-- Helper: a value just written by `SETEX` is readable while its TTL window
lasts. -/
theorem redisGet_setex (st : RedisStore) (now ttl : Nat) (k : String) (v : JobData)
    (httl : 0 < ttl) : redisGet (redisSetex st now ttl k v) now k = some v := by
  unfold redisGet redisSetex
  have hfind : List.find? (fun e => e.key == k)
      (⟨k, v, now + ttl⟩ :: List.filter (fun e => e.key ≠ k) st) = some ⟨k, v, now + ttl⟩ :=
    List.find?_cons_of_pos _ (by simp)
  rw [hfind]
  simp only
  rw [if_pos (by omega)]

/-- Helper: the persist-then-notify tail shared by `complete_job` and
`fail_job` always leaves the just-marked job readable under its own key,
with its terminal status and payload intact. -/
theorem update_then_webhook_get (st : RedisStore) (now ttl : Nat) (j : JobData)
    (w : WebhookOutcome) (httl : 0 < ttl) :
    ∃ jf stf,
      (if (j.webhook_url.isSome && !j.webhook_sent) = true
        then JobService.send_webhook (JobService.update_job st now ttl j) now ttl j w
        else (j, JobService.update_job st now ttl j)) = (jf, stf) ∧
      redisGet stf now (JobService.job_key j.job_id) = some jf ∧
      jf.status = j.status ∧ jf.error = j.error := by
  by_cases hcond : (j.webhook_url.isSome && !j.webhook_sent) = true
  · rw [if_pos hcond]
    unfold JobService.send_webhook
    rcases hu : j.webhook_url with _ | u
    · rw [hu] at hcond
      simp at hcond
    · simp only [hu]
      rcases w with code | _
      · dsimp only
        by_cases hcode : code < 400
        · rw [if_pos hcode]
          refine ⟨_, _, rfl, ?_, rfl, rfl⟩
          exact redisGet_setex _ now ttl _ _ httl
        · rw [if_neg hcode]
          refine ⟨_, _, rfl, ?_, rfl, rfl⟩
          exact redisGet_setex _ now ttl _ _ httl
      · dsimp only
        refine ⟨_, _, rfl, ?_, rfl, rfl⟩
        exact redisGet_setex _ now ttl _ _ httl
  · rw [if_neg hcond]
    refine ⟨j, _, rfl, ?_, rfl, rfl⟩
    exact redisGet_setex _ now ttl _ _ httl

/-- C5: cancelling a job already in a terminal state is rejected with the
`JOB_ALREADY_FINISHED` conflict error and the store is returned unchanged;
cancelling a queued or processing job transitions it to `failed` with the
distinguished `JOB_CANCELLED` error code. -/
theorem cancel_job_spec (st : RedisStore) (now ttl : Nat) (id : String) (w : WebhookOutcome)
    (job : JobData) (hj : JobService.get_job st now id = .ok job) (hid : job.job_id = id)
    (httl : 0 < ttl) :
    ((job.status = .completed ∨ job.status = .failed) →
      cancel_job st now ttl id w = (.alreadyFinished, st)) ∧
    ((job.status = .queued ∨ job.status = .processing) →
      ∃ jf, (cancel_job st now ttl id w).1 = .cancelled ∧
        redisGet (cancel_job st now ttl id w).2 now (JobService.job_key id) = some jf ∧
        jf.status = .failed ∧ jf.error = some "JOB_CANCELLED") := by
  constructor
  · intro hterm
    unfold cancel_job
    rw [hj]
    dsimp only
    rw [if_pos hterm]
  · intro hq
    have hterm : ¬ (job.status = .completed ∨ job.status = .failed) := by
      rcases hq with h | h <;> rw [h] <;> simp
    have hkey : (job.mark_failed "JOB_CANCELLED").job_id = id := hid
    obtain ⟨jf, stf, hif, hget, hst, herr⟩ :=
      update_then_webhook_get st now ttl (job.mark_failed "JOB_CANCELLED") w httl
    rw [hkey] at hget
    have hfail : JobService.fail_job st now ttl id "JOB_CANCELLED" w = .ok (jf, stf) := by
      unfold JobService.fail_job
      rw [hj]
      dsimp only
      rw [← apply_ite Except.ok, hif]
    have hcancel : cancel_job st now ttl id w = (.cancelled, stf) := by
      unfold cancel_job
      rw [hj]
      dsimp only
      rw [if_neg hterm, hfail]
    refine ⟨jf, ?_, ?_, hst, herr⟩
    · rw [hcancel]
    · rw [hcancel]
      exact hget

/-- Witness for C5: on a store with a queued job `a` and a completed job
`b`, cancelling `a` stores it as failed with code `JOB_CANCELLED`, while
cancelling `b` is rejected and leaves the store untouched. -/
theorem cancel_job_spec_witness :
    (∃ jf, (cancel_job [⟨"job:a", { job_id := "a" }, 100⟩] 0 60 "a" .exc).1 = .cancelled ∧
      redisGet (cancel_job [⟨"job:a", { job_id := "a" }, 100⟩] 0 60 "a" .exc).2 0
        (JobService.job_key "a") = some jf ∧
      jf.status = .failed ∧ jf.error = some "JOB_CANCELLED") ∧
    cancel_job [⟨"job:b", { job_id := "b", status := .completed }, 100⟩] 0 60 "b" .exc =
      (.alreadyFinished, [⟨"job:b", { job_id := "b", status := .completed }, 100⟩]) :=
  ⟨(cancel_job_spec [⟨"job:a", { job_id := "a" }, 100⟩] 0 60 "a" .exc
      { job_id := "a" } rfl rfl (by decide)).2 (.inl rfl),
   (cancel_job_spec [⟨"job:b", { job_id := "b", status := .completed }, 100⟩] 0 60 "b" .exc
      { job_id := "b", status := .completed } rfl rfl (by decide)).1 (.inl rfl)⟩

/-- C8 counterexample: a diarisation-flagged YouTube request served through
the openai provider path succeeds with an empty warnings list — no
diarisation warning is emitted, the flag is silently dropped. -/
theorem openai_diarise_warning_missing :
    ∃ r, transcribe_youtube
        { force_asr := true, diarise := true,
          settings := { asr_provider := "openai", openai_api_key := some "k" },
          probe := .ran 0 (some 60),
          engine := .ok ⟨[⟨0, 2, "hello", none⟩], "en", 9/10, 60⟩ } =
      (.ok r, .removed, true) ∧ r.warnings = [] ∧ diariseWarning ∉ r.warnings := by
  refine ⟨_, rfl, rfl, ?_⟩
  simp

/-- C8 amended: on the local engine path the diarisation flag prepends the
non-fatal diarisation warning and changes nothing else — segments, language,
confidence and duration are identical to the unflagged run; on the openai
provider path the flag is silently dropped: that method takes no diarisation
parameter and every successful result carries an empty warnings list. -/
theorem asr_diarise_warning (engine : Except AsrErr EngineResult)
    (language translate_to : Option String) (r : EngineResult) (h : engine = .ok r) :
    (∃ w, ASRService.transcribe engine language translate_to false =
        .ok ⟨r.segments, r.language, r.confidence, r.duration, w⟩ ∧
      ASRService.transcribe engine language translate_to true =
        .ok ⟨r.segments, r.language, r.confidence, r.duration, diariseWarning :: w⟩) ∧
    (∀ (k : Bool) (resp : Except AsrErr EngineResult) (lang : Option String) (a : AsrOk),
      ASRService.transcribe_with_openai k resp lang = .ok a → a.warnings = []) := by
  constructor
  · subst h
    exact ⟨_, rfl, rfl⟩
  · intro k resp lang a ha
    unfold ASRService.transcribe_with_openai at ha
    rcases k with _ | _
    · simp at ha
    · rcases resp with e | rr
      · simp at ha
      · dsimp only at ha
        injection ha with h2
        rw [← h2]

/-- Witness for C8 (amended) at a concrete engine result and a concrete
openai response. -/
theorem asr_diarise_warning_witness :
    (∃ w, ASRService.transcribe (.ok ⟨[], "en", 1, 2⟩) none none false =
        .ok ⟨[], "en", 1, 2, w⟩ ∧
      ASRService.transcribe (.ok ⟨[], "en", 1, 2⟩) none none true =
        .ok ⟨[], "en", 1, 2, diariseWarning :: w⟩) ∧
    (⟨[], "en", 0.95, 2, []⟩ : AsrOk).warnings = [] :=
  ⟨(asr_diarise_warning (.ok ⟨[], "en", 1, 2⟩) none none ⟨[], "en", 1, 2⟩ rfl).1,
   (asr_diarise_warning (.ok ⟨[], "en", 1, 2⟩) none none ⟨[], "en", 1, 2⟩ rfl).2
     true (.ok ⟨[], "en", 1, 2⟩) none ⟨[], "en", 0.95, 2, []⟩ rfl⟩

/-- C6 counterexample: two exits that leave the temporary file behind.  An
oversized upload chunk aborts `save_upload` with `FILE_TOO_LARGE` and the
partial file stays on disk; and a synchronous transcription whose
ASR-reported duration (900) exceeds the ceiling skips the `finally` cleanup,
because the source rebinds `duration` before testing it. -/
theorem temp_file_leaks :
    transcribe_media { input := .upload [524288001] } [] 0 =
      (.apiError "FILE_TOO_LARGE", .onDisk, []) ∧
    (transcribe_media
        { input := .directUrl .okFile, probe := .ran 0 (some 30),
          engine := .ok ⟨[⟨0, 2, "hello", none⟩], "en", 9/10, 900⟩ } [] 0).2.1 = .onDisk := by
  constructor
  · rfl
  · have h1 : ¬ ((30 : ℚ) > 600) := by norm_num
    have h2 : ¬ ((900 : ℚ) ≤ 600) := by norm_num
    simp [transcribe_media, transcribe_media_core, MediaService.download_url, pick_asr,
      ASRService.get_audio_duration, ASRService.transcribe, h1, h2]

/-- C6 amended: the YouTube ASR pipeline removes its temp file on every
exit; the media sync branch removes it on ASR failure and, on success,
whenever the ASR-reported duration also stays at or below the ceiling — the
only sync exit that keeps the file is a success whose reported duration
exceeds the ceiling; past the threshold the file is handed to the scheduled
background job, whose own `finally` removes it on every exit.  (Acquisition
aborts — the counterexample — are outside this guarantee.) -/
theorem temp_file_scoped_cleanup (env : YtEnv) (menv : MediaEnv) (st : RedisStore)
    (now : Nat) (jobId : String) (w : WebhookOutcome) :
    ((process_youtube_asr env).2 ≠ .onDisk ∧ (process_youtube_asr env).2 ≠ .handedToJob) ∧
    (¬ (ASRService.get_audio_duration menv.probe > menv.settings.asr_sync_max_duration) →
      ((transcribe_media_core menv st now).2.1 = .removed ∨
        ∃ a, pick_asr menv.settings menv.engine menv.language menv.translate_to menv.diarise =
            .ok a ∧
          a.duration > menv.settings.asr_sync_max_duration ∧
          (transcribe_media_core menv st now).2.1 = .onDisk)) ∧
    (ASRService.get_audio_duration menv.probe > menv.settings.asr_sync_max_duration →
      (transcribe_media_core menv st now).2.1 = .handedToJob) ∧
    (process_async_job menv st now jobId w).2 = .removed := by
  refine ⟨?_, ?_, ?_, rfl⟩
  · unfold process_youtube_asr
    rcases hd : env.download with e | u
    · exact ⟨by simp, by simp⟩
    · simp only
      rcases hA : pick_asr env.settings env.engine env.language env.translate_to env.diarise
        with e | a
      · exact ⟨by simp, by simp⟩
      · exact ⟨by simp, by simp⟩
  · intro hsync
    unfold transcribe_media_core
    rw [if_neg hsync]
    rcases hA : pick_asr menv.settings menv.engine menv.language menv.translate_to menv.diarise
      with e | a
    · left
      simp
    · by_cases hd : a.duration ≤ menv.settings.asr_sync_max_duration
      · left
        simp [hd]
      · right
        exact ⟨a, rfl, not_le.mp hd, by simp [hd]⟩
  · intro hlong
    unfold transcribe_media_core
    rw [if_pos hlong]

/-- Witness for C6 (amended) at the default environments: the YouTube
pipeline leaves nothing behind, the failed-probe media request cleans up,
and the background job always removes the file. -/
theorem temp_file_scoped_cleanup_witness :
    ((process_youtube_asr {}).2 ≠ .onDisk ∧ (process_youtube_asr {}).2 ≠ .handedToJob) ∧
    (((transcribe_media_core {} [] 0).2.1 = .removed ∨
      ∃ a, pick_asr {} (.error .modelNotAvailable) none none false = .ok a ∧
        a.duration > (600 : ℚ) ∧ (transcribe_media_core {} [] 0).2.1 = .onDisk)) ∧
    (process_async_job {} [] 0 "j" .exc).2 = .removed :=
  ⟨(temp_file_scoped_cleanup {} {} [] 0 "j" .exc).1,
   (temp_file_scoped_cleanup {} {} [] 0 "j" .exc).2.1
     (by show ¬ ((0 : ℚ) > (600 : ℚ)); norm_num),
   (temp_file_scoped_cleanup {} {} [] 0 "j" .exc).2.2.2⟩

/-- C10: `FormatConverter.convert` dispatches on the lower-cased format
name, and any format whose lowercase form is none of `text`, `srt`, `vtt`
falls through to the JSON shape — the segment dictionaries — without
raising. -/
theorem convert_case_insensitive_json_default
    (segments : List TranscriptionSegment) (format : String) :
    (pyLower format = "text" →
      FormatConverter.convert segments format = .str (FormatConverter.to_text segments)) ∧
    (pyLower format = "srt" →
      FormatConverter.convert segments format = .str (FormatConverter.to_srt segments)) ∧
    (pyLower format = "vtt" →
      FormatConverter.convert segments format = .str (FormatConverter.to_vtt segments)) ∧
    (pyLower format ≠ "text" → pyLower format ≠ "srt" → pyLower format ≠ "vtt" →
      FormatConverter.convert segments format = .json segments) := by
  unfold FormatConverter.convert
  refine ⟨?_, ?_, ?_, ?_⟩
  · intro h; simp [h]
  · intro h; simp [h]
  · intro h; simp [h]
  · intro h1 h2 h3; simp [h1, h2, h3]

/-- Witness for C10: upper-cased `SRT` still renders SRT, and an arbitrary
unrecognised format (`Yaml`) yields the JSON shape. -/
theorem convert_case_insensitive_json_default_witness :
    FormatConverter.convert [] "SRT" = .str (FormatConverter.to_srt []) ∧
    FormatConverter.convert [] "Yaml" = .json [] :=
  ⟨(convert_case_insensitive_json_default [] "SRT").2.1 (by decide),
   (convert_case_insensitive_json_default [] "Yaml").2.2.2 (by decide) (by decide) (by decide)⟩

/-- Helper: two-digit padding is two characters exactly for inputs below
100. -/
theorem natPad_two_len : ∀ n : Nat, n < 100 → (natPad 2 n).length = 2 := by decide

/-- Helper: three-digit padding is three characters exactly for inputs
below 1000. -/
theorem natPad_three_len : ∀ n : Nat, n < 1000 → (natPad 3 n).length = 3 := by decide

/-- Helper: a string of the SRT shape has exactly twelve characters. -/
theorem srtShape_length (s : String) (h : srtShape s) : s.length = 12 := by
  obtain ⟨a, b, c, d, ha, hb, hc, hd, rfl⟩ := h
  have l1 := natPad_two_len a ha
  have l2 := natPad_two_len b (by omega)
  have l3 := natPad_two_len c (by omega)
  have l4 := natPad_three_len d hd
  simp [String.length_append, l1, l2, l3, l4]
  decide

/-- Helper: Python `%` as the divisor times the fractional part of the
quotient. -/
theorem pyMod_eq_fract (a b : ℚ) (hb : b ≠ 0) : pyMod a b = b * Int.fract (a / b) := by
  unfold pyMod Int.fract
  rw [mul_sub, mul_comm b (a / b), div_mul_cancel₀ a hb]

/-- Helper: Python `%` is non-negative for a positive divisor. -/
theorem pyMod_nonneg (a b : ℚ) (hb : 0 < b) : 0 ≤ pyMod a b := by
  rw [pyMod_eq_fract a b hb.ne']
  exact mul_nonneg hb.le (Int.fract_nonneg _)

/-- Helper: Python `%` stays below a positive divisor. -/
theorem pyMod_lt (a b : ℚ) (hb : 0 < b) : pyMod a b < b := by
  rw [pyMod_eq_fract a b hb.ne']
  calc b * Int.fract (a / b) < b * 1 := (mul_lt_mul_left hb).mpr (Int.fract_lt_one _)
    _ = b := mul_one b

/-- Helper: integer padding of a natural cast is natural padding. -/
theorem intPad_natCast (w n : Nat) : intPad w (n : ℤ) = natPad w n := by
  unfold intPad
  rw [if_neg (not_lt.mpr (Int.natCast_nonneg n))]
  simp

/-- Helper: the SRT formatter, written through its four clock components. -/
theorem format_srt_time_decompose (s : ℚ) (a b c d : ℤ)
    (h1 : ⌊s / 3600⌋ = a) (h2 : ⌊pyMod s 3600 / 60⌋ = b)
    (h3 : ⌊pyMod s 60⌋ = c) (h4 : ⌊pyMod s 1 * 1000⌋ = d) :
    FormatConverter.format_srt_time s =
      intPad 2 a ++ ":" ++ intPad 2 b ++ ":" ++ intPad 2 c ++ "," ++ intPad 3 d := by
  unfold FormatConverter.format_srt_time
  rw [h1, h2, h3, h4]

/-- Helper: the VTT formatter, written through its four clock components. -/
theorem format_vtt_time_decompose (s : ℚ) (a b c d : ℤ)
    (h1 : ⌊s / 3600⌋ = a) (h2 : ⌊pyMod s 3600 / 60⌋ = b)
    (h3 : ⌊pyMod s 60⌋ = c) (h4 : ⌊pyMod s 1 * 1000⌋ = d) :
    FormatConverter.format_vtt_time s =
      intPad 2 a ++ ":" ++ intPad 2 b ++ ":" ++ intPad 2 c ++ "." ++ intPad 3 d := by
  unfold FormatConverter.format_vtt_time
  rw [h1, h2, h3, h4]

/-- Helper: for a non-negative time below 100 hours, the four clock
components are naturals within the two/two/two/three digit ranges. -/
theorem time_components (s : ℚ) (h0 : 0 ≤ s) (hlt : s < 360000) :
    ∃ a b c d : Nat, a < 100 ∧ b < 60 ∧ c < 60 ∧ d < 1000 ∧
      ⌊s / 3600⌋ = (a : ℤ) ∧ ⌊pyMod s 3600 / 60⌋ = (b : ℤ) ∧
      ⌊pyMod s 60⌋ = (c : ℤ) ∧ ⌊pyMod s 1 * 1000⌋ = (d : ℤ) := by
  have ha0 : 0 ≤ ⌊s / 3600⌋ := Int.floor_nonneg.mpr (div_nonneg h0 (by norm_num))
  have ha1 : ⌊s / 3600⌋ < 100 := by
    apply Int.floor_lt.mpr
    rw [div_lt_iff₀ (by norm_num : (0 : ℚ) < 3600)]
    push_cast
    linarith
  have hm0 : 0 ≤ pyMod s 3600 := pyMod_nonneg s 3600 (by norm_num)
  have hm1 : pyMod s 3600 < 3600 := pyMod_lt s 3600 (by norm_num)
  have hb0 : 0 ≤ ⌊pyMod s 3600 / 60⌋ := Int.floor_nonneg.mpr (div_nonneg hm0 (by norm_num))
  have hb1 : ⌊pyMod s 3600 / 60⌋ < 60 := by
    apply Int.floor_lt.mpr
    rw [div_lt_iff₀ (by norm_num : (0 : ℚ) < 60)]
    push_cast
    linarith
  have hc0q : 0 ≤ pyMod s 60 := pyMod_nonneg s 60 (by norm_num)
  have hc1q : pyMod s 60 < 60 := pyMod_lt s 60 (by norm_num)
  have hc0 : 0 ≤ ⌊pyMod s 60⌋ := Int.floor_nonneg.mpr hc0q
  have hc1 : ⌊pyMod s 60⌋ < 60 := by
    apply Int.floor_lt.mpr
    push_cast
    linarith
  have hd0q : 0 ≤ pyMod s 1 := pyMod_nonneg s 1 (by norm_num)
  have hd1q : pyMod s 1 < 1 := pyMod_lt s 1 (by norm_num)
  have hd0 : 0 ≤ ⌊pyMod s 1 * 1000⌋ := Int.floor_nonneg.mpr (mul_nonneg hd0q (by norm_num))
  have hd1 : ⌊pyMod s 1 * 1000⌋ < 1000 := by
    apply Int.floor_lt.mpr
    push_cast
    linarith
  exact ⟨⌊s / 3600⌋.toNat, ⌊pyMod s 3600 / 60⌋.toNat, ⌊pyMod s 60⌋.toNat,
    ⌊pyMod s 1 * 1000⌋.toNat, by omega, by omega, by omega, by omega,
    (Int.toNat_of_nonneg ha0).symm, (Int.toNat_of_nonneg hb0).symm,
    (Int.toNat_of_nonneg hc0).symm, (Int.toNat_of_nonneg hd0).symm⟩

/-- Helper: every non-negative time below 100 hours formats into both
asserted shapes. -/
theorem shape_of_bounds (s : ℚ) (h0 : 0 ≤ s) (hlt : s < 360000) :
    srtShape (FormatConverter.format_srt_time s) ∧
    vttShape (FormatConverter.format_vtt_time s) := by
  obtain ⟨a, b, c, d, ha, hb, hc, hd, e1, e2, e3, e4⟩ := time_components s h0 hlt
  constructor
  · exact ⟨a, b, c, d, ha, hb, hc, hd, by
      rw [format_srt_time_decompose s a b c d e1 e2 e3 e4,
        intPad_natCast, intPad_natCast, intPad_natCast, intPad_natCast]⟩
  · exact ⟨a, b, c, d, ha, hb, hc, hd, by
      rw [format_vtt_time_decompose s a b c d e1 e2 e3 e4,
        intPad_natCast, intPad_natCast, intPad_natCast, intPad_natCast]⟩

/-- C7 counterexample: at 360000 seconds (100 hours) — a valid non-negative
start with end 360001 — the SRT timestamp is `100:00:00,000`, thirteen
characters, so the hour field has three digits and the claimed
exactly-two-digit shape fails. -/
theorem srt_shape_fails_at_100_hours :
    (0 : ℚ) ≤ 360000 ∧ (360000 : ℚ) < 360001 ∧
    ¬ claimedTimestampShapes 360000 360001 := by
  refine ⟨by norm_num, by norm_num, ?_⟩
  intro hP
  have h1 : ⌊(360000 : ℚ) / 3600⌋ = 100 := by norm_num [Int.floor_eq_iff]
  have hm : pyMod (360000 : ℚ) 3600 = 0 := by unfold pyMod; rw [h1]; norm_num
  have h2 : ⌊pyMod (360000 : ℚ) 3600 / 60⌋ = 0 := by rw [hm]; norm_num [Int.floor_eq_iff]
  have h60 : ⌊(360000 : ℚ) / 60⌋ = 6000 := by norm_num [Int.floor_eq_iff]
  have hm60 : pyMod (360000 : ℚ) 60 = 0 := by unfold pyMod; rw [h60]; norm_num
  have h3 : ⌊pyMod (360000 : ℚ) 60⌋ = 0 := by rw [hm60]; norm_num [Int.floor_eq_iff]
  have hf1 : ⌊(360000 : ℚ) / 1⌋ = 360000 := by norm_num [Int.floor_eq_iff]
  have hm1 : pyMod (360000 : ℚ) 1 = 0 := by unfold pyMod; rw [hf1]; norm_num
  have h4 : ⌊pyMod (360000 : ℚ) 1 * 1000⌋ = 0 := by rw [hm1]; norm_num [Int.floor_eq_iff]
  have hev : FormatConverter.format_srt_time 360000 = "100:00:00,000" := by
    rw [format_srt_time_decompose _ 100 0 0 0 h1 h2 h3 h4]
    decide
  have hlen := srtShape_length _ hP.1
  rw [hev] at hlen
  exact absurd hlen (by decide)

/-- C7 amended: for every start/end pair of non-negative times with
start < end, as long as the times stay below 100 hours (360000 s), the SRT
and VTT timestamps have exactly two-digit hours, minutes and seconds and
three-digit milliseconds, with a comma (SRT) or dot (VTT) separator; in
particular 3661.5 s formats as `01:01:01,500` and `01:01:01.500`.  At 100
hours and beyond the hour field grows past two digits. -/
theorem timestamp_shapes (startT endT : ℚ) (h0 : 0 ≤ startT) (hse : startT < endT)
    (hub : endT < 360000) :
    claimedTimestampShapes startT endT ∧
    FormatConverter.format_srt_time (3661.5 : ℚ) = "01:01:01,500" ∧
    FormatConverter.format_vtt_time (3661.5 : ℚ) = "01:01:01.500" := by
  have hs := shape_of_bounds startT h0 (lt_trans hse hub)
  have he := shape_of_bounds endT (le_of_lt (lt_of_le_of_lt h0 hse)) hub
  have h1 : ⌊(3661.5 : ℚ) / 3600⌋ = 1 := by norm_num [Int.floor_eq_iff]
  have hm : pyMod (3661.5 : ℚ) 3600 = 61.5 := by unfold pyMod; rw [h1]; norm_num
  have h2 : ⌊pyMod (3661.5 : ℚ) 3600 / 60⌋ = 1 := by rw [hm]; norm_num [Int.floor_eq_iff]
  have h60 : ⌊(3661.5 : ℚ) / 60⌋ = 61 := by norm_num [Int.floor_eq_iff]
  have hm60 : pyMod (3661.5 : ℚ) 60 = 1.5 := by unfold pyMod; rw [h60]; norm_num
  have h3 : ⌊pyMod (3661.5 : ℚ) 60⌋ = 1 := by rw [hm60]; norm_num [Int.floor_eq_iff]
  have hf1 : ⌊(3661.5 : ℚ) / 1⌋ = 3661 := by norm_num [Int.floor_eq_iff]
  have hm1 : pyMod (3661.5 : ℚ) 1 = 0.5 := by unfold pyMod; rw [hf1]; norm_num
  have h4 : ⌊pyMod (3661.5 : ℚ) 1 * 1000⌋ = 500 := by rw [hm1]; norm_num [Int.floor_eq_iff]
  refine ⟨⟨hs.1, he.1, hs.2, he.2⟩, ?_, ?_⟩
  · rw [format_srt_time_decompose _ 1 1 1 500 h1 h2 h3 h4]
    decide
  · rw [format_vtt_time_decompose _ 1 1 1 500 h1 h2 h3 h4]
    decide

/-- Witness for C7 (amended) at the concrete pair (3661.5, 3665). -/
theorem timestamp_shapes_witness :
    claimedTimestampShapes (3661.5 : ℚ) 3665 ∧
    FormatConverter.format_srt_time (3661.5 : ℚ) = "01:01:01,500" ∧
    FormatConverter.format_vtt_time (3661.5 : ℚ) = "01:01:01.500" :=
  ⟨(timestamp_shapes (3661.5 : ℚ) 3665 (by norm_num) (by norm_num) (by norm_num)).1,
   (timestamp_shapes (3661.5 : ℚ) 3665 (by norm_num) (by norm_num) (by norm_num)).2.1,
   (timestamp_shapes (3661.5 : ℚ) 3665 (by norm_num) (by norm_num) (by norm_num)).2.2⟩

end Transcriber
